import Mathlib

/-!
Shallow embedding of the catalog synchronization and matching engine of the
justwatch_letterboxd repository, together with theorems settling the frozen
claims about its specification.

Conventions of the embedding:
* Python strings are Lean `String`; `.lower()` / `.strip()` / `.replace` /
  `.startswith` / `.split` are modelled by executable character-list
  functions defined below (ASCII-faithful, which covers every input used by
  the theorems in this file).
* Python `float` ratings are modelled as `Option Rat`; no claim computes with
  a rating, only stores and retrieves it.
* Wall-clock timestamps (`datetime.now()`) are modelled as an integer number
  of seconds, passed explicitly to each operation that reads the clock.
* A Python value that may be `None` is an `Option`; Python truthiness of a
  string is `s = ""` on the `some` branch, of a list is `l = []`.
* SQLite state (src/cache.py) is a list of rows plus the next autoincrement
  id; SQL statements are modelled row by row, including the NULL semantics of
  the UNIQUE(title, year) constraint and of `WHERE imdb_id = ?`.
* External network collaborators (HTTP fetch of a catalog page, the
  letterboxdpy Movie constructor) are oracle function parameters; everything
  the repository itself computes is embedded from its source.
-/

/-- Lowercase a list of characters (ASCII model of SQL LOWER / Python lower). -/
def lowerChars (cs : List Char) : List Char :=
  cs.map Char.toLower

/-- `leadsWith need hay` is true when `need` occurs at the start of `hay`. -/
def leadsWith : List Char → List Char → Bool
  | [], _ => true
  | _ :: _, [] => false
  | a :: as, b :: bs => a == b && leadsWith as bs

/-- `occursIn need hay` is true when `need` occurs contiguously inside `hay`
(substring test, used to model SQL LIKE with percent signs on both sides). -/
def occursIn (need : List Char) : List Char → Bool
  | [] => leadsWith need []
  | c :: t => leadsWith need (c :: t) || occursIn need t

/-- Strip leading and trailing whitespace (Python str.strip with no
argument, restricted to the ASCII whitespace that occurs in practice). -/
def trimChars (cs : List Char) : List Char :=
  ((cs.dropWhile Char.isWhitespace).reverse.dropWhile Char.isWhitespace).reverse

/-- Python str.lower on a whole string (ASCII model). -/
def strLower (s : String) : String :=
  String.mk (lowerChars s.data)

/-- `removeAllAux pat cs k` removes every non-overlapping left-to-right
occurrence of `pat` from `cs`; a positive `k` means the next `k` characters
belong to an occurrence already recognized and are dropped. -/
def removeAllAux (pat : List Char) : List Char → Nat → List Char
  | [], _ => []
  | _ :: t, k + 1 => removeAllAux pat t k
  | c :: t, 0 =>
    if leadsWith pat (c :: t) then removeAllAux pat t (pat.length - 1)
    else c :: removeAllAux pat t 0

/-- Python `s.replace(pat, "")` for a non-empty pattern: drop every
non-overlapping occurrence, scanning left to right. -/
def removeAll (pat cs : List Char) : List Char :=
  removeAllAux pat cs 0

/-- Python `s.split("/")` on a character list: split at every slash,
keeping empty pieces, never returning an empty list of pieces. -/
def splitOnSlash : List Char → List (List Char)
  | [] => [[]]
  | '/' :: t => [] :: splitOnSlash t
  | c :: t =>
    match splitOnSlash t with
    | h :: r => (c :: h) :: r
    | [] => [[c]]

/-- Normalization applied to titles by the repository: Python
`title.strip().lower()` (src/catalog/manager.py, `_title_key`). -/
def normalizeTitle (t : String) : String :=
  String.mk (lowerChars (trimChars t.data))

/-- Embeds `CatalogManager._title_key` (src/catalog/manager.py lines 161-172):
`f"{title}|{year}" if year else title` where `title` is stripped and
lowercased.  A year of `0` is falsy in Python, hence yields the bare title. -/
def titleKey (title : String) (year : Option Int) : String :=
  let t := normalizeTitle title
  match year with
  | some y => if y == 0 then t else t ++ "|" ++ toString y
  | none => t

/-- A scraper result dict (src/scrapers/justwatch_netflix.py,
`_extract_movie_data`): title, optional year, optional imdb id, optional
justwatch id.  The same shape serves as the dict consumed by
`_compare_catalogs` and `_remove_deleted_titles`. -/
structure CatalogEntry where
  title : String
  year : Option Int := none
  imdb_id : Option String := none
  justwatch_id : Option String := none
deriving Repr, DecidableEq

/-- Key of a catalog dict, as `_title_key` computes it. -/
def entryKey (m : CatalogEntry) : String :=
  titleKey m.title m.year

/-- Result of `CatalogManager._compare_catalogs`. -/
structure Changes where
  new : List CatalogEntry
  removed : List CatalogEntry
  retained : List CatalogEntry
deriving Repr, DecidableEq

/-- Embeds `CatalogManager._compare_catalogs` (src/catalog/manager.py lines
129-159), with the cached side passed in as a parameter (the method reads it
from `self.cache.get_platform_catalog("Netflix")`; the sync embedding below
feeds exactly that value).  Python set membership is list membership here:
the filters only ever test membership of a key. -/
def compareCatalogs (current cached : List CatalogEntry) : Changes :=
  let currentSet := current.map entryKey
  let cachedSet := cached.map entryKey
  let newKeys := currentSet.filter (fun k => !(cachedSet.contains k))
  let removedKeys := cachedSet.filter (fun k => !(currentSet.contains k))
  let retainedKeys := currentSet.filter (fun k => cachedSet.contains k)
  { new := current.filter (fun m => newKeys.contains (entryKey m))
    removed := cached.filter (fun m => removedKeys.contains (entryKey m))
    retained := current.filter (fun m => retainedKeys.contains (entryKey m)) }

/-- Collapse every run of hyphens to a single hyphen.  Embeds the loop
`while "--" in slug: slug = slug.replace("--", "-")` of
`LetterboxdClient._title_to_slug`: iterating the global pairwise replacement
until no double hyphen remains collapses each maximal hyphen run to one
hyphen and touches nothing else, which is what this function computes
directly. -/
def collapseHyphens : List Char → List Char
  | [] => []
  | '-' :: rest =>
    match collapseHyphens rest with
    | '-' :: t => '-' :: t
    | t => '-' :: t
  | c :: rest => c :: collapseHyphens rest

/-- Drop leading and trailing hyphens (Python `slug.strip("-")`). -/
def trimHyphens (cs : List Char) : List Char :=
  ((cs.dropWhile (fun c => c == '-')).reverse.dropWhile (fun c => c == '-')).reverse

/-- Embeds `LetterboxdClient._title_to_slug` (src/letterboxd/client.py lines
136-158): lowercase, strip, spaces to hyphens, keep only alphanumerics and
hyphens, collapse duplicate hyphens, strip outer hyphens. -/
def titleToSlug (title : String) : String :=
  let s := trimChars (lowerChars title.data)
  let s := s.map (fun c => if c == ' ' then '-' else c)
  let s := s.filter (fun c => c.isAlphanum || c == '-')
  String.mk (trimHyphens (collapseHyphens s))

/-- Leading decimal digits of a character list. -/
def leadingDigits : List Char → List Char
  | [] => []
  | c :: t => if c.isDigit then c :: leadingDigits t else []

/-- A match of the regular expression tt\d+ anchored at the head of the
list: two literal letters t followed by at least one digit, extending
through the maximal digit run. -/
def ttHere : List Char → Option (List Char)
  | 't' :: 't' :: c :: rest =>
    if c.isDigit then some ('t' :: 't' :: c :: leadingDigits rest) else none
  | _ => none

/-- Leftmost match of tt\d+ in a character list (Python re.search). -/
def findTT : List Char → Option String
  | [] => none
  | c :: t =>
    match ttHere (c :: t) with
    | some m => some (String.mk m)
    | none => findTT t

/-- Embeds `LetterboxdClient.extract_imdb_id` (src/letterboxd/client.py lines
91-118) applied to the imdb_link attribute of a letterboxd movie: None when
the link is absent or empty (falsy), None when "/title/" does not occur in
the link (the function then falls off the end), otherwise the leftmost
tt-digits token of the link. -/
def lbExtractImdbId (imdb_link : Option String) : Option String :=
  match imdb_link with
  | none => none
  | some s =>
    if s == "" then none
    else if occursIn "/title/".data s.data then findTT s.data
    else none

/-- The surface of a letterboxdpy Movie object that the repository reads:
url, rating, genres (already projected to their name strings, as both
consumers of `.genres` do), imdb_link. -/
structure LbMovie where
  url : Option String := none
  rating : Option Rat := none
  genres : List String := []
  imdb_link : Option String := none
deriving Repr, DecidableEq

/-- The surface of a simplejustwatchapi MediaEntry that the matcher reads. -/
structure MediaEntry where
  title : String
  entry_id : String
  imdb_id : Option String := none
  year : Option Int := none
  rating : Option Rat := none
deriving Repr, DecidableEq

/-- Embeds `JustWatchClient.extract_imdb_id` (src/justwatch/client.py lines
122-133): the imdb_id attribute when truthy, else None. -/
def jwExtractImdbId (m : MediaEntry) : Option String :=
  match m.imdb_id with
  | some s => if s == "" then none else some s
  | none => none

/-- Embeds the dataclass `MatchedMovie` (src/matcher.py lines 15-33).  Every
field that defaults to None in the dataclass is an Option with default
none. -/
structure MatchedMovie where
  title : String
  imdb_id : Option String
  year : Option Int := none
  justwatch_id : Option String := none
  streaming_platforms : Option (List String) := none
  justwatch_rating : Option Rat := none
  letterboxd_slug : Option String := none
  letterboxd_rating : Option Rat := none
  genres : Option (List String) := none
  letterboxd_url : Option String := none
deriving Repr, DecidableEq

/-- Python `s.split("/")[-2]` as used on urls and imdb links: the second
element from the end of the slash-split; `none` models the IndexError raised
when the split has fewer than two parts (a link with no slash). -/
def splitSecondLast (s : String) : Option String :=
  match (splitOnSlash s.data).reverse with
  | _ :: x :: _ => some (String.mk x)
  | _ => none

/-- External collaborators of `MovieMatcher`, as oracles: `lbFetch` is
`LetterboxdClient.get_movie` (slug to movie; every exception inside it is
caught and returned as None by the client), `jwPlatforms` is
`JustWatchClient.get_streaming_platforms` (plumbing over the offers of a
MediaEntry). -/
structure MatcherEnv where
  lbFetch : String → Option LbMovie
  jwPlatforms : MediaEntry → List String

/-- `LetterboxdClient.get_movie_by_title`: slugify the title, then fetch. -/
def lbGetMovieByTitle (env : MatcherEnv) (title : String) : Option LbMovie :=
  env.lbFetch (titleToSlug title)

/-- Embeds `MovieMatcher._create_partial_match` (src/matcher.py lines
158-171): a MatchedMovie built from JustWatch data only; every
letterboxd-side field keeps its None default. -/
def createJWOnlyMatch (env : MatcherEnv) (jw : MediaEntry) (imdb : String) :
    MatchedMovie :=
  { title := jw.title
    imdb_id := some imdb
    year := jw.year
    justwatch_id := some jw.entry_id
    streaming_platforms := some (env.jwPlatforms jw)
    justwatch_rating := jw.rating }

/-- Embeds `MovieMatcher._create_matched_movie` (src/matcher.py lines
138-156).  `get_rating` returns the rating attribute, `get_genres` the genre
names; the slug is the second-from-last path segment of the letterboxd url
when the url is truthy. -/
def createFullMatch (env : MatcherEnv) (jw : MediaEntry) (lbm : LbMovie)
    (imdb : String) : MatchedMovie :=
  { title := jw.title
    imdb_id := some imdb
    year := jw.year
    justwatch_id := some jw.entry_id
    streaming_platforms := some (env.jwPlatforms jw)
    justwatch_rating := jw.rating
    letterboxd_slug :=
      match lbm.url with
      | some u => if u == "" then none else splitSecondLast u
      | none => none
    letterboxd_rating := lbm.rating
    genres := some lbm.genres
    letterboxd_url := lbm.url }

/-- The letterboxd lookup performed inside `match_by_imdb_id`: by slug when a
truthy slug was supplied, else by title. -/
def matcherLookup (env : MatcherEnv) (jw : MediaEntry)
    (slug : Option String) : Option LbMovie :=
  match slug with
  | some s => if s == "" then lbGetMovieByTitle env jw.title else env.lbFetch s
  | none => lbGetMovieByTitle env jw.title

/-- Embeds `MovieMatcher.match_by_imdb_id` (src/matcher.py lines 54-91):
None when no imdb id can be extracted from the JustWatch entry; otherwise a
partial match when the letterboxd lookup misses or when the extracted
letterboxd imdb id differs from the JustWatch one, and a full match when the
two ids agree. -/
def match_by_imdb_id (env : MatcherEnv) (jw : MediaEntry)
    (slug : Option String) : Option MatchedMovie :=
  match jwExtractImdbId jw with
  | none => none
  | some imdb =>
    match matcherLookup env jw slug with
    | some lbm =>
      if lbExtractImdbId lbm.imdb_link == some imdb then
        some (createFullMatch env jw lbm imdb)
      else
        some (createJWOnlyMatch env jw imdb)
    | none => some (createJWOnlyMatch env jw imdb)

/-- Builds the MatchedMovie that `CatalogManager._process_new_titles`
constructs for a letterboxd hit (src/catalog/manager.py lines 193-204).
The imdb id is `letterboxd_movie.imdb_link.split("/")[-2]` when the link is
truthy; `none` as overall result models the IndexError of that expression on
a link with no slash, which the surrounding try block turns into a missing
entry. -/
def mkMatchedFromLb (movie : CatalogEntry) (lbm : LbMovie) :
    Option MatchedMovie :=
  let build : Option String → MatchedMovie := fun imdb =>
    { title := movie.title
      year := movie.year
      justwatch_id := movie.justwatch_id
      imdb_id := imdb
      letterboxd_rating := lbm.rating
      letterboxd_url := lbm.url
      genres := some lbm.genres
      streaming_platforms := some ["Netflix"] }
  match lbm.imdb_link with
  | some s =>
    if s == "" then some (build none)
    else
      match splitSecondLast s with
      | some x => some (build (some x))
      | none => none
  | none => some (build none)

/-- Embeds `CatalogManager._process_new_titles` (src/catalog/manager.py lines
174-216): for each new title, look the title up on letterboxd; a hit becomes
a MatchedMovie appended to the matched list, a miss or an exception appends
the entry to the missing list.  The lookup oracle already absorbs every
exception of the client into None; the only other exception site of the loop
body, the imdb link split, is the `none` branch of `mkMatchedFromLb`. -/
def processNewTitles (lbFetch : String → Option LbMovie) :
    List CatalogEntry → List MatchedMovie × List CatalogEntry
  | [] => ([], [])
  | movie :: rest =>
    let r := processNewTitles lbFetch rest
    match lbFetch (titleToSlug movie.title) with
    | some lbm =>
      match mkMatchedFromLb movie lbm with
      | some mm => (mm :: r.1, r.2)
      | none => (r.1, movie :: r.2)
    | none => (r.1, movie :: r.2)

/-- One row of the movies table (src/cache.py `_init_db`).  The two TEXT
columns that hold JSON lists are modelled by their decoded value: the json
module round-trips a list of plain strings exactly, so a cell is `none` for
SQL NULL and `some xs` for the serialized list `xs`. -/
structure Row where
  id : Nat
  imdb_id : Option String
  title : String
  year : Option Int
  justwatch_id : Option String
  streaming_platforms : Option (List String)
  justwatch_rating : Option Rat
  letterboxd_slug : Option String
  letterboxd_rating : Option Rat
  genres : Option (List String)
  letterboxd_url : Option String
  cached_at : Int
  last_accessed : Int
deriving Repr, DecidableEq

/-- SQLite database state: the rows of the movies table in rowid order plus
the next autoincrement id. -/
structure MovieCache where
  rows : List Row
  nextId : Nat
deriving Repr, DecidableEq

/-- A freshly initialized database (`_init_db` on a new file). -/
def MovieCache.empty : MovieCache := { rows := [], nextId := 1 }

/-- `json.dumps(x) if x else None` on an optional list, seen through the
decoded-cell model: Python treats both None and the empty list as falsy, so
an empty list is stored as SQL NULL. -/
def serializeListCell (l : Option (List String)) : Option (List String) :=
  match l with
  | none => none
  | some [] => none
  | some xs => some xs

/-- Conflict test of the UNIQUE(title, year) constraint for the year column:
SQL NULL is distinct from everything, including NULL, so rows with a NULL
year never conflict. -/
def sqlYearEq (y1 y2 : Option Int) : Bool :=
  match y1, y2 with
  | some a, some b => a == b
  | _, _ => false

/-- True when storing a movie with the given title and year collides with
row `r` under UNIQUE(title, year) (binary, case-sensitive text
comparison). -/
def keyConflict (title : String) (year : Option Int) (r : Row) : Bool :=
  r.title == title && sqlYearEq r.year year

/-- The row that `MovieCache.set` inserts (the VALUES tuple of the INSERT OR
REPLACE, src/cache.py lines 142-161), with both timestamps set to the
current time. -/
def mkRow (m : MatchedMovie) (id : Nat) (now : Int) : Row :=
  { id := id
    imdb_id := m.imdb_id
    title := m.title
    year := m.year
    justwatch_id := m.justwatch_id
    streaming_platforms := serializeListCell m.streaming_platforms
    justwatch_rating := m.justwatch_rating
    letterboxd_slug := m.letterboxd_slug
    letterboxd_rating := m.letterboxd_rating
    genres := serializeListCell m.genres
    letterboxd_url := m.letterboxd_url
    cached_at := now
    last_accessed := now }

/-- Embeds `MovieCache.set` (src/cache.py lines 132-162): INSERT OR REPLACE
deletes every row that violates UNIQUE(title, year) against the incoming
values, then appends the new row with a fresh rowid. -/
def MovieCache.set (c : MovieCache) (m : MatchedMovie) (now : Int) :
    MovieCache :=
  { rows := c.rows.filter (fun r => !keyConflict m.title m.year r)
      ++ [mkRow m c.nextId now]
    nextId := c.nextId + 1 }

/-- Embeds `MovieCache._row_to_movie` (src/cache.py lines 221-234): each JSON
cell is decoded when truthy, else None; with decoded cells this is the
identity on the cell. -/
def rowToMovie (r : Row) : MatchedMovie :=
  { title := r.title
    imdb_id := r.imdb_id
    year := r.year
    justwatch_id := r.justwatch_id
    streaming_platforms := r.streaming_platforms
    justwatch_rating := r.justwatch_rating
    letterboxd_slug := r.letterboxd_slug
    letterboxd_rating := r.letterboxd_rating
    genres := r.genres
    letterboxd_url := r.letterboxd_url }

/-- The expiry test of the cache reads: Python
`datetime.now() - cached_at > timedelta(hours=max_age_hours)`, in seconds. -/
def isExpired (now cached_at : Int) (maxAgeHours : Nat) : Bool :=
  now - cached_at > (maxAgeHours : Int) * 3600

/-- Embeds `MovieCache.get` (src/cache.py lines 66-101).  `SELECT * FROM
movies WHERE imdb_id = ?` with fetchone returns the first matching row in
rowid order (a NULL imdb_id never matches); an expired row yields None with
no write; otherwise the UPDATE sets last_accessed to now on every row with
that imdb_id and the row fetched before the update is returned. -/
def MovieCache.get (c : MovieCache) (imdb : String) (maxAgeHours : Nat)
    (now : Int) : Option MatchedMovie × MovieCache :=
  match c.rows.find? (fun r => r.imdb_id == some imdb) with
  | none => (none, c)
  | some row =>
    if isExpired now row.cached_at maxAgeHours then (none, c)
    else
      (some (rowToMovie row),
       { c with rows := c.rows.map (fun r =>
           if r.imdb_id == some imdb then { r with last_accessed := now }
           else r) })

/-- The candidate row of `get_by_title`: `ORDER BY cached_at DESC LIMIT 1`
keeps a row with maximal cached_at among the LIKE matches (the first such in
rowid order; SQLite leaves ties unspecified). -/
def maxCachedAt : List Row → Option Row
  | [] => none
  | r :: t =>
    match maxCachedAt t with
    | none => some r
    | some b => if b.cached_at > r.cached_at then some b else some r

/-- Embeds `MovieCache.get_by_title` (src/cache.py lines 103-130): `title
LIKE ?` with percent signs around the argument is a case-insensitive
substring test; the newest matching row is returned unless expired.  No
statement in this method writes, so the database component of the result is
always the input state. -/
def MovieCache.get_by_title (c : MovieCache) (title : String)
    (maxAgeHours : Nat) (now : Int) : Option MatchedMovie × MovieCache :=
  match maxCachedAt (c.rows.filter
      (fun r => occursIn (lowerChars title.data) (lowerChars r.title.data))) with
  | none => (none, c)
  | some row =>
    if isExpired now row.cached_at maxAgeHours then (none, c)
    else (some (rowToMovie row), c)

/-- Embeds `MovieCache.delete` (src/cache.py lines 259-275): a key with the
imdb prefix deletes by imdb_id, one with the title prefix deletes by
lowercased title, and any other key matches neither branch and the method
returns without touching the database.  Python str.replace removes every
occurrence of the prefix text, exactly as `removeAll` does. -/
def MovieCache.delete (c : MovieCache) (key : String) : MovieCache :=
  if leadsWith "imdb:".data key.data then
    let i := String.mk (removeAll "imdb:".data key.data)
    { c with rows := c.rows.filter (fun r => !(r.imdb_id == some i)) }
  else if leadsWith "title:".data key.data then
    let t := strLower (String.mk (removeAll "title:".data key.data))
    { c with rows := c.rows.filter (fun r => !(strLower r.title == t)) }
  else c

/-- The TEXT stored for a JSON list cell, as `json.dumps` renders a list of
strings with its default separators.  Escaping inside the strings is not
modelled; no theorem below stores a string containing a quote or a
backslash. -/
def renderJsonList (xs : List String) : String :=
  "[" ++ String.intercalate ", " (xs.map (fun s => "\"" ++ s ++ "\"")) ++ "]"

/-- `streaming_platforms LIKE ?` with percent signs around the platform name
(src/cache.py line 248): NULL never matches; a stored JSON text matches when
the platform name occurs in it case-insensitively. -/
def platformCellLike (cell : Option (List String)) (platform : String) :
    Bool :=
  match cell with
  | none => false
  | some xs =>
    occursIn (lowerChars platform.data) (lowerChars (renderJsonList xs).data)

/-- Embeds `MovieCache.get_platform_catalog` (src/cache.py lines 236-257).
Each row matching the LIKE filter is converted with `movie.to_dict()`, but
the MatchedMovie dataclass defines no to_dict method, so the first matching
row raises AttributeError (the error value); with no matching row the loop
completes and the empty list is returned. -/
def MovieCache.get_platform_catalog (c : MovieCache) (platform : String) :
    Except Unit (List CatalogEntry) :=
  if c.rows.any (fun r => platformCellLike r.streaming_platforms platform) then
    .error ()
  else
    .ok []

/-- One scraped catalog page, as the scraper sees it after parsing: the
extracted movie dicts of the page and whether a next-page link is present. -/
structure Page where
  tiles : List CatalogEntry
  hasNext : Bool

/-- Embeds the pagination loop of `NetflixScraper.scrape_catalog`
(src/scrapers/justwatch_netflix.py lines 45-88).  The oracle models one HTTP
GET plus parse of a page; an error value stands for the httpx.HTTPError or
any other exception of the iteration, which the loop catches and answers by
breaking out with the movies collected so far.  The loop also stops on a
page with no tiles or without a next-page link.  The Python loop is
unbounded, so the embedding carries fuel; every theorem below supplies
enough fuel for its oracle. -/
def scrapeLoop (fetchPage : Nat → Except String Page) :
    Nat → Nat → List CatalogEntry → List CatalogEntry
  | 0, _, acc => acc
  | fuel + 1, page, acc =>
    match fetchPage page with
    | .error _ => acc
    | .ok pg =>
      if pg.tiles.isEmpty then acc
      else if pg.hasNext then scrapeLoop fetchPage fuel (page + 1) (acc ++ pg.tiles)
      else acc ++ pg.tiles

/-- `NetflixScraper.scrape_catalog`: run the pagination loop from page 1
with an empty accumulator.  The function never raises: every transport or
parse error is caught inside the loop. -/
def scrapeCatalog (fetchPage : Nat → Except String Page) (fuel : Nat) :
    List CatalogEntry :=
  scrapeLoop fetchPage fuel 1 []

/-- Embeds `CatalogManager._store_matched_movies` (src/catalog/manager.py
lines 218-225): `self.cache.set(movie)` for each matched movie in order. -/
def storeMatchedMovies (c : MovieCache) (ms : List MatchedMovie) (now : Int) :
    MovieCache :=
  ms.foldl (fun acc m => acc.set m now) c

/-- Embeds `CatalogManager._remove_deleted_titles` (src/catalog/manager.py
lines 242-256): delete by the lowercased title key, then by the imdb key
when the dict carries a truthy imdb id. -/
def removeDeleted (c : MovieCache) (removed : List CatalogEntry) :
    MovieCache :=
  removed.foldl (fun acc m =>
    let acc1 := acc.delete ("title:" ++ strLower m.title)
    match m.imdb_id with
    | some i => if i == "" then acc1 else acc1.delete ("imdb:" ++ i)
    | none => acc1) c

/-- The statistics dict returned by `sync_netflix_catalog` (elapsed seconds,
a wall-clock reading, is not modelled). -/
structure SyncStats where
  new : Nat
  removed : Nat
  retained : Nat
  matched : Nat
  missing : Nat
  total : Nat
deriving Repr, DecidableEq

/-- Embeds `CatalogManager.sync_netflix_catalog` (src/catalog/manager.py
lines 66-127): scrape the current catalog, read the cached Netflix catalog
and diff, resolve only the new titles, store the matched movies, delete the
removed titles, and return the counts.  The error value is the AttributeError
that `get_platform_catalog` raises on a non-empty cached Netflix catalog;
no statement of the method catches it, so it propagates out of sync. -/
def sync (fetchPage : Nat → Except String Page) (fuel : Nat)
    (lbFetch : String → Option LbMovie) (now : Int) (c : MovieCache) :
    Except Unit (SyncStats × MovieCache) :=
  let current := scrapeCatalog fetchPage fuel
  match c.get_platform_catalog "Netflix" with
  | .error e => .error e
  | .ok cached =>
    let changes := compareCatalogs current cached
    let res := processNewTitles lbFetch changes.new
    let c1 := storeMatchedMovies c res.1 now
    let c2 := removeDeleted c1 changes.removed
    .ok ({ new := changes.new.length
           removed := changes.removed.length
           retained := changes.retained.length
           matched := res.1.length
           missing := res.2.length
           total := current.length }, c2)

/-- Sample entity used by several concrete witnesses: a cached Netflix title
with an imdb id. -/
def duneCached : MatchedMovie :=
  { title := "Dune", imdb_id := some "tt1160419", year := some 2021 }

/-- Sample entity pair for the upsert claims: same exact title and year,
different field values. -/
def arrivalA : MatchedMovie :=
  { title := "Arrival", imdb_id := some "tt2543164", year := some 2016 }

/-- Second write for the upsert witness: same key as `arrivalA`, different
field values. -/
def arrivalB : MatchedMovie :=
  { title := "Arrival", imdb_id := none, year := some 2016,
    letterboxd_rating := some 4 }

/-- Sample letterboxd result whose imdb link extracts to tt0000001, used to
witness the identity-conflict downgrade. -/
def lbmConflict : LbMovie :=
  { url := some "https://letterboxd.com/film/inception/",
    rating := some 4, genres := ["Science Fiction"],
    imdb_link := some "http://www.imdb.com/title/tt0000001/" }

/-- Sample JustWatch entry carrying imdb id tt1375666. -/
def jwInception : MediaEntry :=
  { title := "Inception", entry_id := "tm92641", imdb_id := some "tt1375666",
    year := some 2010 }

/-- Matcher environment whose letterboxd lookup always answers with
`lbmConflict`. -/
def envConflict : MatcherEnv :=
  { lbFetch := fun _ => some lbmConflict, jwPlatforms := fun _ => ["Netflix"] }

/-- Sample movie whose list fields are present but empty. -/
def listFilm : MatchedMovie :=
  { title := "List Film", imdb_id := some "tt0000002",
    streaming_platforms := some [], genres := some [] }

theorem contains_true_iff {α : Type} [BEq α] [LawfulBEq α] (l : List α) (a : α) :
    l.contains a = true ↔ a ∈ l := by
  simp [List.contains, List.elem_iff]

theorem contains_false_iff {α : Type} [BEq α] [LawfulBEq α] (l : List α) (a : α) :
    l.contains a = false ↔ ¬ a ∈ l := by
  rw [← contains_true_iff]
  cases h : l.contains a <;> simp [h]

theorem mem_keyfilter_map (l : List CatalogEntry) (p : String → Bool) (k : String) :
    k ∈ (l.filter (fun m => p (entryKey m))).map entryKey ↔
      k ∈ l.map entryKey ∧ p k = true := by
  constructor
  · intro h
    rcases List.mem_map.mp h with ⟨m, hm, rfl⟩
    rcases List.mem_filter.mp hm with ⟨hml, hp⟩
    exact ⟨List.mem_map_of_mem _ hml, hp⟩
  · rintro ⟨hk, hp⟩
    rcases List.mem_map.mp hk with ⟨m, hm, rfl⟩
    exact List.mem_map_of_mem _ (List.mem_filter.mpr ⟨hm, hp⟩)

theorem key_mem_new_iff (current cached : List CatalogEntry) (k : String) :
    k ∈ (compareCatalogs current cached).new.map entryKey ↔
      (k ∈ current.map entryKey ∧ ¬ k ∈ cached.map entryKey) := by
  simp only [compareCatalogs]
  rw [mem_keyfilter_map, contains_true_iff, List.mem_filter, Bool.not_eq_true',
    contains_false_iff]
  tauto

theorem key_mem_removed_iff (current cached : List CatalogEntry) (k : String) :
    k ∈ (compareCatalogs current cached).removed.map entryKey ↔
      (k ∈ cached.map entryKey ∧ ¬ k ∈ current.map entryKey) := by
  simp only [compareCatalogs]
  rw [mem_keyfilter_map, contains_true_iff, List.mem_filter, Bool.not_eq_true',
    contains_false_iff]
  tauto

theorem key_mem_retained_iff (current cached : List CatalogEntry) (k : String) :
    k ∈ (compareCatalogs current cached).retained.map entryKey ↔
      (k ∈ current.map entryKey ∧ k ∈ cached.map entryKey) := by
  simp only [compareCatalogs]
  rw [mem_keyfilter_map, contains_true_iff, List.mem_filter, contains_true_iff]
  tauto

theorem processNewTitles_all_miss (lbFetch : String → Option LbMovie) :
    ∀ entries : List CatalogEntry,
      (∀ e ∈ entries, lbFetch (titleToSlug e.title) = none) →
      processNewTitles lbFetch entries = ([], entries)
  | [], _ => rfl
  | e :: t, h => by
    have he := h e (List.mem_cons_self e t)
    have ht := processNewTitles_all_miss lbFetch t
      (fun x hx => h x (List.mem_cons_of_mem e hx))
    simp [processNewTitles, he, ht]

/-- C1 counterexample: with a catalog fetch that fails on the first page
with a transport error, `sync` does not surface any failure — it returns
statistics (all counts zero here) and an unchanged store, refuting the claim
that a total fetch failure is surfaced as a cycle-level failure with no
statistics produced. -/
theorem C1_counterexample :
    sync (fun _ => .error "ConnectError") 5 (fun _ => none) 0 MovieCache.empty =
      .ok ({ new := 0, removed := 0, retained := 0, matched := 0, missing := 0,
             total := 0 }, MovieCache.empty) := rfl

/-- C1 (amended): a transport or parse error while fetching the catalog is
caught inside the scraper, which returns the titles collected before the
error — the empty snapshot when the very first page fails.  `sync` then
completes normally instead of failing: when no previously cached row matches
the Netflix platform filter it returns all-zero statistics and leaves the
store unchanged. -/
theorem C1_fetch_error_swallowed (e : String) (fetchPage : Nat → Except String Page)
    (fuel : Nat) (lbFetch : String → Option LbMovie) (now : Int) (c : MovieCache)
    (herr : fetchPage 1 = .error e)
    (hcache : ∀ r ∈ c.rows, platformCellLike r.streaming_platforms "Netflix" = false) :
    sync fetchPage (fuel + 1) lbFetch now c =
      .ok ({ new := 0, removed := 0, retained := 0, matched := 0, missing := 0,
             total := 0 }, c) := by
  have hscrape : scrapeCatalog fetchPage (fuel + 1) = [] := by
    simp [scrapeCatalog, scrapeLoop, herr]
  have hany : c.rows.any (fun r => platformCellLike r.streaming_platforms "Netflix")
      = false :=
    List.any_eq_false.mpr (fun x hx => by simp [hcache x hx])
  have hcat : c.get_platform_catalog "Netflix" = .ok [] := by
    simp [MovieCache.get_platform_catalog, hany]
  simp [sync, hscrape, hcat, compareCatalogs, processNewTitles, storeMatchedMovies,
    removeDeleted]

/-- C1 witness: the amended theorem applied to a concrete failing fetch
oracle and the empty store. -/
theorem C1_fetch_error_swallowed_witness :
    sync (fun _ => .error "ReadTimeout") 3 (fun _ => none) 7 MovieCache.empty =
      .ok ({ new := 0, removed := 0, retained := 0, matched := 0, missing := 0,
             total := 0 }, MovieCache.empty) :=
  C1_fetch_error_swallowed "ReadTimeout" (fun _ => .error "ReadTimeout") 2
    (fun _ => none) 7 MovieCache.empty rfl
    (fun r hr => absurd hr (List.not_mem_nil r))

/-- C2 counterexample: a catalog entry with no cross-reference id whose
rating-service lookup returns nothing produces NO partial-match entity — the
matched list is empty and the entry lands in the missing list; likewise the
id-based matcher returns unresolved for an entry with no extractable id.
This refutes the claim that a partial match is still produced and
persisted. -/
theorem C2_counterexample :
    processNewTitles (fun _ => none) [{ title := "Ghost Film", year := some 2020 }] =
      ([], [{ title := "Ghost Film", year := some 2020 }]) ∧
    match_by_imdb_id { lbFetch := fun _ => none, jwPlatforms := fun _ => ["Netflix"] }
      { title := "Ghost Film", entry_id := "tm77", imdb_id := none } none = none :=
  ⟨rfl, rfl⟩

/-- C2 (amended): when the rating-service lookup misses for every entry, the
orchestrator resolves no entity at all: the matched list is empty, every
entry is recorded in the missing list (not an error), nothing is persisted,
and the id-based matcher yields unresolved for an entry with no extractable
cross-reference id. -/
theorem C2_miss_yields_missing_only (lbFetch : String → Option LbMovie)
    (entries : List CatalogEntry)
    (hmiss : ∀ e ∈ entries, lbFetch (titleToSlug e.title) = none)
    (env : MatcherEnv) (jw : MediaEntry)
    (hid : jwExtractImdbId jw = none) :
    processNewTitles lbFetch entries = ([], entries) ∧
    (∀ (c : MovieCache) (now : Int),
      storeMatchedMovies c (processNewTitles lbFetch entries).1 now = c) ∧
    match_by_imdb_id env jw none = none := by
  have h1 := processNewTitles_all_miss lbFetch entries hmiss
  refine ⟨h1, fun c now => ?_, ?_⟩
  · rw [h1]; rfl
  · simp [match_by_imdb_id, hid]

/-- C2 witness: the amended theorem applied to one concrete entry with an
always-missing lookup oracle. -/
theorem C2_miss_yields_missing_only_witness :
    processNewTitles (fun _ => none) [{ title := "Lost Reel" }] =
      ([], [{ title := "Lost Reel" }]) ∧
    (∀ (c : MovieCache) (now : Int),
      storeMatchedMovies c
        (processNewTitles (fun _ => none) [{ title := "Lost Reel" }]).1 now = c) ∧
    match_by_imdb_id { lbFetch := fun _ => none, jwPlatforms := fun _ => [] }
      { title := "Lost Reel", entry_id := "tm9", imdb_id := none } none = none :=
  C2_miss_yields_missing_only (fun _ => none) [{ title := "Lost Reel" }]
    (fun _ _ => rfl) { lbFetch := fun _ => none, jwPlatforms := fun _ => [] }
    { title := "Lost Reel", entry_id := "tm9", imdb_id := none } rfl

/-- C3 counterexample: the titles Dune and dune have the same normalized
key, yet storing one and then the other leaves TWO rows — the upsert is
keyed on the exact title, not the normalized one, refuting the claim that
two entities with equal normalized keys collapse into one row. -/
theorem C3_counterexample :
    normalizeTitle "Dune" = normalizeTitle "dune" ∧
    ((MovieCache.empty.set
        { title := "Dune", imdb_id := some "tt1160419", year := some 2021 } 10).set
        { title := "dune", imdb_id := some "tt1160419", year := some 2021 } 20).rows.map
      (fun r => (normalizeTitle r.title, r.year)) =
      [("dune", some 2021), ("dune", some 2021)] :=
  ⟨rfl, rfl⟩

/-- C3 (amended): for two entities with the SAME EXACT title string and the
same present year, storing the first and then the second leaves exactly one
row for that key — the second row, holding the second entity's field values
with cached_at and last_accessed both set to the time of the second store.
The first conjunct records that the first entity's row carries the same
persistence key, hence was replaced. -/
theorem C3_upsert_exact_key (c : MovieCache) (E E2 : MatchedMovie) (t1 t2 : Int)
    (y : Int) (htitle : E2.title = E.title) (hy1 : E.year = some y)
    (hy2 : E2.year = some y) :
    keyConflict E2.title E2.year (mkRow E c.nextId t1) = true ∧
    ((c.set E t1).set E2 t2).rows.filter (fun r => keyConflict E2.title E2.year r) =
      [mkRow E2 (c.nextId + 1) t2] ∧
    (mkRow E2 (c.nextId + 1) t2).cached_at = t2 ∧
    (mkRow E2 (c.nextId + 1) t2).last_accessed = t2 := by
  refine ⟨by simp [keyConflict, mkRow, sqlYearEq, htitle, hy1, hy2], ?_, rfl, rfl⟩
  have hrows : ((c.set E t1).set E2 t2).rows =
      ((c.set E t1).rows.filter (fun r => !keyConflict E2.title E2.year r))
        ++ [mkRow E2 (c.nextId + 1) t2] := rfl
  rw [hrows, List.filter_append, List.filter_filter]
  have h1 : ((c.set E t1).rows.filter
      (fun r => keyConflict E2.title E2.year r && !keyConflict E2.title E2.year r)) = [] := by
    rw [List.filter_eq_nil_iff]
    intro r hr
    cases h : keyConflict E2.title E2.year r <;> simp [h]
  have h2 : keyConflict E2.title E2.year (mkRow E2 (c.nextId + 1) t2) = true := by
    simp [keyConflict, mkRow, sqlYearEq, hy2]
  rw [h1]
  simp [h2]

/-- C3 witness: the amended theorem applied to two concrete same-key
entities stored at times 5 and 9. -/
theorem C3_upsert_exact_key_witness :
    keyConflict arrivalB.title arrivalB.year (mkRow arrivalA 1 5) = true ∧
    ((MovieCache.empty.set arrivalA 5).set arrivalB 9).rows.filter
      (fun r => keyConflict arrivalB.title arrivalB.year r) = [mkRow arrivalB 2 9] ∧
    (mkRow arrivalB 2 9).cached_at = 9 ∧
    (mkRow arrivalB 2 9).last_accessed = 9 :=
  C3_upsert_exact_key MovieCache.empty arrivalA arrivalB 5 9 2016 rfl rfl rfl

/-- C4: when the JustWatch entry carries cross-reference id X and the
letterboxd lookup returns a record whose extracted id Y differs from X, the
matcher yields exactly the JustWatch-only partial match: every
letterboxd-side field (slug, rating, genres, url) is None, and the result
can never equal a full match (a full match always carries a present genres
list). -/
theorem C4_identity_conflict_downgrade (env : MatcherEnv) (jw : MediaEntry)
    (slug : Option String) (X Y : String) (lbm : LbMovie)
    (hX : jwExtractImdbId jw = some X)
    (hlb : matcherLookup env jw slug = some lbm)
    (hY : lbExtractImdbId lbm.imdb_link = some Y)
    (hne : ¬ Y = X) :
    match_by_imdb_id env jw slug = some (createJWOnlyMatch env jw X) ∧
    (createJWOnlyMatch env jw X).letterboxd_slug = none ∧
    (createJWOnlyMatch env jw X).letterboxd_rating = none ∧
    (createJWOnlyMatch env jw X).genres = none ∧
    (createJWOnlyMatch env jw X).letterboxd_url = none ∧
    (∀ (lbm2 : LbMovie) (Z : String),
      ¬ createJWOnlyMatch env jw X = createFullMatch env jw lbm2 Z) := by
  have hbe : (lbExtractImdbId lbm.imdb_link == some X) = false := by
    rw [hY]
    simp [hne]
  refine ⟨?_, rfl, rfl, rfl, rfl, ?_⟩
  · simp [match_by_imdb_id, hX, hlb, hbe]
  · intro lbm2 Z h
    have hg := congrArg MatchedMovie.genres h
    simp [createJWOnlyMatch, createFullMatch] at hg

/-- C4 witness: the theorem applied to a concrete entry with id tt1375666
and a letterboxd record extracting to tt0000001. -/
theorem C4_identity_conflict_downgrade_witness :
    match_by_imdb_id envConflict jwInception none =
      some (createJWOnlyMatch envConflict jwInception "tt1375666") ∧
    (createJWOnlyMatch envConflict jwInception "tt1375666").letterboxd_slug = none ∧
    (createJWOnlyMatch envConflict jwInception "tt1375666").letterboxd_rating = none ∧
    (createJWOnlyMatch envConflict jwInception "tt1375666").genres = none ∧
    (createJWOnlyMatch envConflict jwInception "tt1375666").letterboxd_url = none ∧
    (∀ (lbm2 : LbMovie) (Z : String),
      ¬ createJWOnlyMatch envConflict jwInception "tt1375666" =
        createFullMatch envConflict jwInception lbm2 Z) :=
  C4_identity_conflict_downgrade envConflict jwInception none "tt1375666"
    "tt0000001" lbmConflict rfl rfl rfl (by decide)

/-- C5: running the change detector with a snapshot S as the current side
and S itself as the previous side yields empty new and removed sets, and
retained equal to S as a whole list. -/
theorem C5_diff_idempotent (S : List CatalogEntry) :
    compareCatalogs S S = { new := [], removed := [], retained := S } := by
  have hkeys : ∀ k ∈ S.map entryKey, (S.map entryKey).contains k = true := fun k hk =>
    (contains_true_iff _ _).mpr hk
  have hmem : ∀ m ∈ S, (S.map entryKey).contains (entryKey m) = true := fun m hm =>
    hkeys _ (List.mem_map_of_mem _ hm)
  simp only [compareCatalogs]
  have h1 : (S.map entryKey).filter (fun k => !((S.map entryKey).contains k)) = [] := by
    rw [List.filter_eq_nil_iff]
    intro k hk h
    rw [Bool.not_eq_true', contains_false_iff] at h
    exact h hk
  have h2 : (S.map entryKey).filter
      (fun k => (S.map entryKey).contains k) = S.map entryKey :=
    List.filter_eq_self.mpr hkeys
  rw [h1, h2]
  congr 1
  · rw [List.filter_eq_nil_iff]
    intro m hm
    simp
  · rw [List.filter_eq_nil_iff]
    intro m hm
    simp
  · exact List.filter_eq_self.mpr hmem

/-- C6: for any current and previous snapshots, every key of the current
side occurs in exactly one of the new and retained outputs, and every key of
the previous side occurs in exactly one of the removed and retained
outputs. -/
theorem C6_partition_complete (current cached : List CatalogEntry) (k : String) :
    (k ∈ current.map entryKey →
      Xor' (k ∈ (compareCatalogs current cached).new.map entryKey)
        (k ∈ (compareCatalogs current cached).retained.map entryKey)) ∧
    (k ∈ cached.map entryKey →
      Xor' (k ∈ (compareCatalogs current cached).removed.map entryKey)
        (k ∈ (compareCatalogs current cached).retained.map entryKey)) := by
  constructor
  · intro hk
    by_cases hc : k ∈ cached.map entryKey
    · exact Or.inr ⟨(key_mem_retained_iff current cached k).mpr ⟨hk, hc⟩,
        fun hn => ((key_mem_new_iff current cached k).mp hn).2 hc⟩
    · exact Or.inl ⟨(key_mem_new_iff current cached k).mpr ⟨hk, hc⟩,
        fun hr => hc ((key_mem_retained_iff current cached k).mp hr).2⟩
  · intro hk
    by_cases hc : k ∈ current.map entryKey
    · exact Or.inr ⟨(key_mem_retained_iff current cached k).mpr ⟨hc, hk⟩,
        fun hn => ((key_mem_removed_iff current cached k).mp hn).2 hc⟩
    · exact Or.inl ⟨(key_mem_removed_iff current cached k).mpr ⟨hk, hc⟩,
        fun hr => hc ((key_mem_retained_iff current cached k).mp hr).1⟩

/-- C6 witness: the partition property at a concrete one-entry snapshot, on
both the current side (entry is new) and the previous side (entry is
removed). -/
theorem C6_partition_complete_witness :
    (Xor' ("dune|2021" ∈
        (compareCatalogs [{ title := "Dune", year := some 2021 }] []).new.map entryKey)
      ("dune|2021" ∈
        (compareCatalogs [{ title := "Dune", year := some 2021 }] []).retained.map entryKey)) ∧
    (Xor' ("dune|2021" ∈
        (compareCatalogs [] [{ title := "Dune", year := some 2021 }]).removed.map entryKey)
      ("dune|2021" ∈
        (compareCatalogs [] [{ title := "Dune", year := some 2021 }]).retained.map entryKey)) :=
  ⟨(C6_partition_complete [{ title := "Dune", year := some 2021 }] [] "dune|2021").1
      (by decide),
   (C6_partition_complete [] [{ title := "Dune", year := some 2021 }] "dune|2021").2
      (by decide)⟩

/-- C7 counterexample: a read with max_age_hours zero carrying the SAME
timestamp as the write returns the stored row, because the expiry comparison
is strict — refuting the claim that the entry is treated as instantly
expired even at an equal timestamp. -/
theorem C7_counterexample :
    (((MovieCache.empty.set duneCached 100).get "tt1160419" 0 100).1).isSome
      = true := rfl

/-- C7 (amended): with max_age_hours zero, a get of a freshly stored entity
returns not-found whenever the read happens strictly later than the write;
at the exact same timestamp the expiry test fails (strict comparison) and
the stored entity is returned. -/
theorem C7_zero_age_strict (c : MovieCache) (E : MatchedMovie) (i : String)
    (t1 t2 : Int) (hid : E.imdb_id = some i)
    (hfresh : ∀ r ∈ c.rows, ¬ r.imdb_id = some i) :
    (t2 > t1 → ((c.set E t1).get i 0 t2).1 = none) ∧
    ((c.set E t1).get i 0 t1).1 = some (rowToMovie (mkRow E c.nextId t1)) := by
  have hfind : (c.set E t1).rows.find? (fun r => r.imdb_id == some i)
      = some (mkRow E c.nextId t1) := by
    show ((c.rows.filter (fun r => !keyConflict E.title E.year r))
        ++ [mkRow E c.nextId t1]).find? (fun r => r.imdb_id == some i) = _
    rw [List.find?_append]
    have h1 : (c.rows.filter (fun r => !keyConflict E.title E.year r)).find?
        (fun r => r.imdb_id == some i) = none := by
      rw [List.find?_eq_none]
      intro x hx
      have hnot := hfresh x (List.mem_filter.mp hx).1
      simp [hnot]
    rw [h1]
    simp [mkRow, hid]
  constructor
  · intro hgt
    have hexp : isExpired t2 (mkRow E c.nextId t1).cached_at 0 = true := by
      simp [isExpired, mkRow]
      omega
    simp [MovieCache.get, hfind, hexp]
  · have hexp : isExpired t1 (mkRow E c.nextId t1).cached_at 0 = false := by
      simp [isExpired, mkRow]
    simp [MovieCache.get, hfind, hexp]

/-- C7 witness: the amended theorem applied to a concrete entity stored at
time 100 and read at times 101 and 100. -/
theorem C7_zero_age_strict_witness :
    ((MovieCache.empty.set duneCached 100).get "tt1160419" 0 101).1 = none ∧
    ((MovieCache.empty.set duneCached 100).get "tt1160419" 0 100).1 =
      some (rowToMovie (mkRow duneCached 1 100)) :=
  ⟨(C7_zero_age_strict MovieCache.empty duneCached "tt1160419" 100 101 rfl
      (fun r hr => absurd hr (List.not_mem_nil r))).1 (by decide),
   (C7_zero_age_strict MovieCache.empty duneCached "tt1160419" 100 101 rfl
      (fun r hr => absurd hr (List.not_mem_nil r))).2⟩

/-- C8 counterexample: a successful, non-expired read through the
title-fallback lookup at time 5 leaves the row's last_accessed at its stored
value 0 — the title lookup performs no write, refuting the claim that every
successful read updates last_accessed. -/
theorem C8_counterexample :
    (((MovieCache.empty.set duneCached 0).get_by_title "Dune" 24 5).1).isSome
      = true ∧
    ((MovieCache.empty.set duneCached 0).get_by_title "Dune" 24 5).2.rows.map
      Row.last_accessed = [0] :=
  ⟨rfl, rfl⟩

/-- C8 (amended): a successful, non-expired read by cross-reference id sets
last_accessed to the read time on exactly the rows with that id, leaving
every other field and every other row unchanged; the title-fallback lookup
never writes — the store after it is identically the store before. -/
theorem C8_read_touch (c : MovieCache) (i title : String) (maxAge : Nat)
    (now : Int) :
    ((((c.get i maxAge now).1).isSome = true) →
      ((c.get i maxAge now).2).rows = c.rows.map (fun r =>
        if r.imdb_id == some i then { r with last_accessed := now } else r)) ∧
    ((c.get_by_title title maxAge now).2) = c := by
  constructor
  · intro hs
    unfold MovieCache.get at hs ⊢
    cases hfind : c.rows.find? (fun r => r.imdb_id == some i) with
    | none =>
      rw [hfind] at hs
      simp at hs
    | some row =>
      rw [hfind] at hs
      by_cases hexp : isExpired now row.cached_at maxAge
      · simp [hexp] at hs
      · simp [hexp]
  · unfold MovieCache.get_by_title
    cases hmax : maxCachedAt (c.rows.filter
        (fun r => occursIn (lowerChars title.data) (lowerChars r.title.data))) with
    | none => rfl
    | some row =>
      by_cases hexp : isExpired now row.cached_at maxAge <;> simp [hexp]

/-- C8 witness: the amended theorem applied to a concrete store with one row
read successfully by imdb id and by title. -/
theorem C8_read_touch_witness :
    ((MovieCache.empty.set duneCached 0).get "tt1160419" 24 5).2.rows =
      (MovieCache.empty.set duneCached 0).rows.map (fun r =>
        if r.imdb_id == some "tt1160419" then { r with last_accessed := 5 }
        else r) ∧
    ((MovieCache.empty.set duneCached 0).get_by_title "Dune" 24 5).2 =
      MovieCache.empty.set duneCached 0 :=
  ⟨(C8_read_touch (MovieCache.empty.set duneCached 0) "tt1160419" "Dune" 24 5).1
      rfl,
   (C8_read_touch (MovieCache.empty.set duneCached 0) "tt1160419" "Dune" 24 5).2⟩

/-- C9: deleting with a key that begins with neither the imdb nor the title
marker text matches no branch of the delete method: no error is raised and
the store is returned bit-for-bit unchanged — a bare title or bare imdb id
deletes nothing. -/
theorem C9_delete_unknown_key_noop (c : MovieCache) (key : String)
    (h1 : leadsWith "imdb:".data key.data = false)
    (h2 : leadsWith "title:".data key.data = false) :
    c.delete key = c := by
  simp [MovieCache.delete, h1, h2]

/-- C9 witness: the theorem applied to a bare imdb id and a bare title on a
non-empty concrete store. -/
theorem C9_delete_unknown_key_noop_witness :
    (MovieCache.empty.set duneCached 0).delete "tt1160419" =
      MovieCache.empty.set duneCached 0 ∧
    (MovieCache.empty.set duneCached 0).delete "Dune" =
      MovieCache.empty.set duneCached 0 :=
  ⟨C9_delete_unknown_key_noop (MovieCache.empty.set duneCached 0) "tt1160419"
      rfl rfl,
   C9_delete_unknown_key_noop (MovieCache.empty.set duneCached 0) "Dune"
      rfl rfl⟩

/-- C10: a MatchedMovie whose streaming_platforms or genres field is the
present-but-empty list is stored with SQL NULL in that column, and a
subsequent successful get returns the field as None — so set followed by get
is not the identity on such movies. -/
theorem C10_empty_list_not_identity (m : MatchedMovie) (i : String) (t now : Int)
    (maxAge : Nat) (hid : m.imdb_id = some i)
    (hfresh : isExpired now t maxAge = false) :
    (m.streaming_platforms = some [] →
      (MovieCache.empty.set m t).rows.map Row.streaming_platforms = [none] ∧
      ((MovieCache.empty.set m t).get i maxAge now).1.map
        MatchedMovie.streaming_platforms = some none ∧
      ¬ ((MovieCache.empty.set m t).get i maxAge now).1 = some m) ∧
    (m.genres = some [] →
      (MovieCache.empty.set m t).rows.map Row.genres = [none] ∧
      ((MovieCache.empty.set m t).get i maxAge now).1.map MatchedMovie.genres
        = some none ∧
      ¬ ((MovieCache.empty.set m t).get i maxAge now).1 = some m) := by
  have hrows : (MovieCache.empty.set m t).rows = [mkRow m 1 t] := rfl
  have hfind : (MovieCache.empty.set m t).rows.find?
      (fun r => r.imdb_id == some i) = some (mkRow m 1 t) := by
    rw [hrows]
    simp [List.find?, mkRow, hid]
  have hget : ((MovieCache.empty.set m t).get i maxAge now).1 =
      some (rowToMovie (mkRow m 1 t)) := by
    have hexp : isExpired now (mkRow m 1 t).cached_at maxAge = false := hfresh
    simp [MovieCache.get, hfind, hexp]
  constructor
  · intro hsp
    refine ⟨by rw [hrows]; simp [mkRow, serializeListCell, hsp], ?_, ?_⟩
    · rw [hget]
      simp [rowToMovie, mkRow, serializeListCell, hsp]
    · intro heq
      rw [hget] at heq
      have h2 := Option.some.inj heq
      have h3 := congrArg MatchedMovie.streaming_platforms h2
      rw [hsp] at h3
      simp [rowToMovie, mkRow, serializeListCell, hsp] at h3
  · intro hg
    refine ⟨by rw [hrows]; simp [mkRow, serializeListCell, hg], ?_, ?_⟩
    · rw [hget]
      simp [rowToMovie, mkRow, serializeListCell, hg]
    · intro heq
      rw [hget] at heq
      have h2 := Option.some.inj heq
      have h3 := congrArg MatchedMovie.genres h2
      rw [hg] at h3
      simp [rowToMovie, mkRow, serializeListCell, hg] at h3

/-- C10 witness: the theorem applied to a concrete movie carrying empty
platform and genre lists, stored and read back at time 0. -/
theorem C10_empty_list_not_identity_witness :
    ((MovieCache.empty.set listFilm 0).rows.map Row.streaming_platforms = [none] ∧
      ((MovieCache.empty.set listFilm 0).get "tt0000002" 24 0).1.map
        MatchedMovie.streaming_platforms = some none ∧
      ¬ ((MovieCache.empty.set listFilm 0).get "tt0000002" 24 0).1 =
        some listFilm) ∧
    ((MovieCache.empty.set listFilm 0).rows.map Row.genres = [none] ∧
      ((MovieCache.empty.set listFilm 0).get "tt0000002" 24 0).1.map
        MatchedMovie.genres = some none ∧
      ¬ ((MovieCache.empty.set listFilm 0).get "tt0000002" 24 0).1 =
        some listFilm) :=
  ⟨(C10_empty_list_not_identity listFilm "tt0000002" 0 0 24 rfl rfl).1 rfl,
   (C10_empty_list_not_identity listFilm "tt0000002" 0 0 24 rfl rfl).2 rfl⟩
